import Mathlib

/-!
Shallow embedding of `src/ebird/pages/checklists.py`, the checklist
extraction engine of `mariostg/ebird-pages`.

The Python code walks a BeautifulSoup document tree.  Here a document is
modelled by the values the extractors actually read from the tree: each
field of `Doc` records the outcome of the fixed query the corresponding
extractor performs (`Option.none` meaning the queried node is absent).
Python exceptions are modelled by `Except Err`; the numeric value that
`float(values[0])` produces in `_scrape_area` is represented by its source
token, since the program only ever tests it against `None`.
-/

/-- Python exceptions raised by the extraction code. -/
inductive Err where
  | attributeError
  | typeError
  | indexError
  | keyError (key : String)
  | valueError (msg : String)
deriving DecidableEq, Repr

/-- Values stored in a scraped record (a Python dict). -/
inductive Val where
  | none
  | str (s : String)
  | pair (a b : Option String)
  | strs (l : List String)
deriving DecidableEq, Repr

/-- A scraped record: a Python dict in insertion order. -/
abbrev Rec := List (String × Val)

/-- A Python value that is either `None` or a string, as stored in a dict. -/
def optVal : Option String → Val
  | Option.none => Val.none
  | some s => Val.str s

/-- Python truthiness of an optional string (`None` and `""` are falsy). -/
def pyTruthy : Option String → Bool
  | Option.none => false
  | some s => s ≠ ""

/-- An `<a href=~"hotspot">` link: its `span` child's text (if the child
exists) and its `href` attribute (present, since the query matches on it). -/
structure HotspotLink where
  spanText : Option String
  href : String
deriving DecidableEq, Repr

/-- An `<a href=~"region">` link: its own text, its `span` child's text
(if the child exists) and its `href` attribute. -/
structure RegionLink where
  text : String
  spanText : Option String
  href : String
deriving DecidableEq, Repr

/-- One `<li data-observation>` item: the species label text (if the
`Observation-species` div and its span exist) and the texts of the spans
inside the `Observation-numberObserved` div (if that div exists). -/
structure EntryNode where
  speciesText : Option String
  numberDiv : Option (List String)
deriving DecidableEq, Repr

/-- The outcomes of the fixed queries the extractors run on a checklist
page.  `Option.none` means the queried node is absent from the tree. -/
structure Doc where
  /-- value of `<input name="subID">`, if that input exists -/
  subIdValue : Option String
  /-- `datetime` attribute of the `<time>` node, if that node exists
  (when present, the node is assumed to carry the attribute, as checklist
  pages always do; both the date and the time extractor read it) -/
  timeDatetime : Option String
  /-- text of the `span.Heading-main.u-inline-sm` node, if it exists -/
  protocolName : Option String
  /-- number of `<section>` elements on the page -/
  sections : Nat
  /-- first hotspot link, if any -/
  hotspotLink : Option HotspotLink
  /-- all region links, in document order -/
  regionLinks : List RegionLink
  /-- `href` of the `a.u-inset-squish-sm` link, if that link exists -/
  coordsHref : Option String
  /-- duration field: `Option.none` when no span's title matches the
  duration label; `some Option.none` when the span exists but has no
  `Badge-label` child; `some (some s)` when the badge text is `s` -/
  durationSpan : Option (Option String)
  /-- distance field, same shape as `durationSpan` -/
  distanceSpan : Option (Option String)
  /-- text of the `dd` next to the `dt` matching the area label, if that
  `dt` exists -/
  areaText : Option String
  /-- text of the sibling following the observers label span;
  `Option.none` when the label span (or its sibling) is absent -/
  partySizeText : Option String
  /-- whether the `span` with string "Owner" exists -/
  ownerPresent : Bool
  /-- children of `div#checklist-others` when that div exists; for each
  child, the text of its `span` descendant when that lookup succeeds -/
  othersDiv : Option (List (Option String))
  /-- entry items inside `div#list` when that div exists -/
  listDiv : Option (List EntryNode)
  /-- texts of all `span.Badge-label` nodes, in document order -/
  badgeLabels : List String
deriving Repr

/-! ### Python library helpers (str.split, str.lower, int(), float(), strptime) -/

/-- Numeric value of a digit character. -/
def digitVal (c : Char) : Nat := c.toNat - 48

/-- A nonempty run of decimal digits. -/
def digitsOnly (cs : List Char) : Bool :=
  decide (cs ≠ []) && cs.all (fun c => c.isDigit)

/-- Value of a digit run. -/
def digitsToNat (cs : List Char) : Nat :=
  cs.foldl (fun a c => 10 * a + digitVal c) 0

/-- Python `int(s)` on a stripped string: an optional sign followed by
digits (numeric-literal underscores are not modelled). -/
def pyInt (s : String) : Option Int :=
  match s.data with
  | '+' :: r => if digitsOnly r then some (Int.ofNat (digitsToNat r)) else Option.none
  | '-' :: r => if digitsOnly r then some (-(Int.ofNat (digitsToNat r))) else Option.none
  | r => if digitsOnly r then some (Int.ofNat (digitsToNat r)) else Option.none

/-- Mantissa of a Python float literal: digits, optionally with a decimal
point on either side. -/
def isMantissa (cs : List Char) : Bool :=
  match cs.span (fun c => c ≠ '.') with
  | (intPart, []) => digitsOnly intPart
  | (intPart, _ :: frac) =>
    if frac.contains '.' then false
    else if intPart = [] then digitsOnly frac
    else digitsOnly intPart && (decide (frac = []) || digitsOnly frac)

/-- Exponent part of a Python float literal. -/
def isExponent (cs : List Char) : Bool :=
  match cs with
  | '+' :: r => digitsOnly r
  | '-' :: r => digitsOnly r
  | r => digitsOnly r

/-- Whether Python `float(s)` succeeds on a whitespace-free string
(numeric-literal underscores are not modelled). -/
def isFloatLit (s : String) : Bool :=
  let cs := match s.data with
    | '+' :: r => r
    | '-' :: r => r
    | r => r
  if decide (cs = "inf".data) || decide (cs = "infinity".data) || decide (cs = "nan".data) then
    true
  else
    match cs.span (fun c => c ≠ 'e' && c ≠ 'E') with
    | (mant, []) => isMantissa mant
    | (mant, _ :: ex) => isMantissa mant && isExponent ex

/-- Python `str.lower` on one character (ASCII, which covers every token
the unit tables list). -/
def pyLowerChar (c : Char) : Char :=
  if 'A' ≤ c ∧ c ≤ 'Z' then Char.ofNat (c.toNat + 32) else c

/-- Python `s.lower()`. -/
def pyLower (s : String) : String :=
  String.mk (s.data.map pyLowerChar)

/-- Python `s.strip()`: drop whitespace from both ends. -/
def pyStrip (s : String) : String :=
  String.mk
    (((s.data.dropWhile (fun c => c.isWhitespace)).reverse.dropWhile
        (fun c => c.isWhitespace)).reverse)

/-- Split on every occurrence of a separator, keeping empty pieces, like
Python `s.split(sep)`. -/
def splitOnChar (sep : Char) : List Char → List Char → List String
  | [], acc => [String.mk acc.reverse]
  | c :: rest, acc =>
    if c = sep then String.mk acc.reverse :: splitOnChar sep rest []
    else splitOnChar sep rest (c :: acc)

/-- Python `s.split(sep)` for a one-character separator. -/
def pySplit (sep : Char) (s : String) : List String :=
  splitOnChar sep s.data []

/-- Maximal runs of non-whitespace characters, like Python `s.split()`. -/
def wsTokens : List Char → List Char → List String
  | [], acc => if acc = [] then [] else [String.mk acc.reverse]
  | c :: rest, acc =>
    if c.isWhitespace then
      if acc = [] then wsTokens rest []
      else String.mk acc.reverse :: wsTokens rest []
    else wsTokens rest (c :: acc)

/-- Python `s.lower().split()`: lowercase, then split on whitespace runs. -/
def pyTokens (s : String) : List String :=
  wsTokens (pyLower s).data []

/-- A timezone-naive `datetime.datetime` (seconds and below are zero for
the `%Y-%m-%dT%H:%M` pattern). -/
structure PyDateTime where
  year : Nat
  month : Nat
  day : Nat
  hour : Nat
  minute : Nat
deriving DecidableEq, Repr

/-- Length of a month, as validated by the `datetime` constructor. -/
def daysInMonth (y m : Nat) : Nat :=
  if m = 2 then
    if (y % 4 = 0 && y % 100 ≠ 0) || y % 400 = 0 then 29 else 28
  else if m = 4 || m = 6 || m = 9 || m = 11 then 30
  else 31

/-- One numeric `strptime` field: a two-digit form accepted when `ok2`
holds of its value, otherwise a one-digit form accepted when `ok1` holds
(mirroring the regex alternations `strptime` compiles per directive). -/
def parseField2 (ok2 ok1 : Nat → Bool) : List Char → Option (Nat × List Char)
  | c1 :: c2 :: rest =>
    if c1.isDigit && c2.isDigit && ok2 (10 * digitVal c1 + digitVal c2) then
      some (10 * digitVal c1 + digitVal c2, rest)
    else if c1.isDigit && ok1 (digitVal c1) then
      some (digitVal c1, c2 :: rest)
    else Option.none
  | [c1] =>
    if c1.isDigit && ok1 (digitVal c1) then some (digitVal c1, []) else Option.none
  | [] => Option.none

/-- Python `datetime.datetime.strptime(s, "%Y-%m-%dT%H:%M")`: four year
digits, month, day, hour and minute fields separated by the literal
`-`, `-`, `T`, `:`, with no characters left over, then the `datetime`
range checks (year at least 1, day within the month). -/
def parseTs (s : String) : Option PyDateTime :=
  match s.data with
  | c1 :: c2 :: c3 :: c4 :: rest =>
    if c1.isDigit && c2.isDigit && c3.isDigit && c4.isDigit then
      let y := 1000 * digitVal c1 + 100 * digitVal c2 + 10 * digitVal c3 + digitVal c4
      match rest with
      | '-' :: r1 =>
        match parseField2 (fun m => 1 ≤ m && m ≤ 12) (fun m => 1 ≤ m && m ≤ 9) r1 with
        | some (m, '-' :: r3) =>
          match parseField2 (fun d => 1 ≤ d && d ≤ 31) (fun d => 1 ≤ d && d ≤ 9) r3 with
          | some (d, 'T' :: r5) =>
            match parseField2 (fun h => h ≤ 23) (fun _ => true) r5 with
            | some (h, ':' :: r7) =>
              match parseField2 (fun mi => mi ≤ 59) (fun _ => true) r7 with
              | some (mi, []) =>
                if 1 ≤ y && d ≤ daysInMonth y m then some ⟨y, m, d, h, mi⟩
                else Option.none
              | _ => Option.none
            | _ => Option.none
          | _ => Option.none
        | _ => Option.none
      | _ => Option.none
    else Option.none
  | _ => Option.none

/-- Zero-padded two-digit rendering. -/
def pad2 (n : Nat) : String :=
  if n < 10 then "0" ++ toString n else toString n

/-- Python `dt.strftime("%I:%M %p")`: 12-hour clock with AM/PM. -/
def strftimeIMp (dt : PyDateTime) : String :=
  let h12 := if dt.hour % 12 = 0 then 12 else dt.hour % 12
  let ap := if dt.hour < 12 then "AM" else "PM"
  pad2 h12 ++ ":" ++ pad2 dt.minute ++ " " ++ ap

/-! ### Atomic field extractors -/

/-- `_scrape_identifier`: `node.find("input", {"name": "subID"})["value"]`;
subscripting `None` raises a `TypeError`. -/
def _scrape_identifier (d : Doc) : Except Err String :=
  match d.subIdValue with
  | Option.none => Except.error Err.typeError
  | some v => Except.ok v

/-- `_scrape_date`: read the `<time>` node's `datetime` attribute
(subscripting `None` raises a `TypeError`) and `strptime` it. -/
def _scrape_date (d : Doc) : Except Err PyDateTime :=
  match d.timeDatetime with
  | Option.none => Except.error Err.typeError
  | some v =>
    match parseTs v with
    | Option.none => Except.error (Err.valueError "time data does not match format")
    | some dt => Except.ok dt

/-- `_scrape_time`: `node.find("time").attrs["datetime"]` —
accessing `.attrs` on `None` raises an `AttributeError`; a falsy (empty)
value leaves `time` as `None`; otherwise the value is parsed and
re-rendered on a 12-hour clock. -/
def _scrape_time (d : Doc) : Except Err (Option String) :=
  match d.timeDatetime with
  | Option.none => Except.error Err.attributeError
  | some v =>
    if v = "" then Except.ok Option.none
    else
      match parseTs v with
      | Option.none => Except.error (Err.valueError "time data does not match format")
      | some dt => Except.ok (some (strftimeIMp dt))

/-- `_scrape_party_size`: find the observers label span (calling
`find_next_sibling` on `None`, or `.text` on a missing sibling, raises an
`AttributeError`) and return the next sibling's text. -/
def _scrape_party_size (d : Doc) : Except Err String :=
  match d.partySizeText with
  | Option.none => Except.error Err.attributeError
  | some s => Except.ok s

/-- `_scrape_distance`: find the span titled with the distance label; if
present, take its `Badge-label` child's text (`.text` on `None` raises an
`AttributeError`).  The unit table below is never consulted. -/
def _scrape_distance (d : Doc) : Except Err (Option String) :=
  match d.distanceSpan with
  | Option.none => Except.ok Option.none
  | some Option.none => Except.error Err.attributeError
  | some (some s) => Except.ok (some s)

/-- `_scrape_distance.units`, attached to the function but unused. -/
def distanceUnits : List (String × String) :=
  [("kilometer(s)", "km"), ("kilometre(s)", "km"), ("km(s)", "km"),
   ("kilometers", "km"), ("kilometres", "km"), ("km", "km"), ("kms", "km"),
   ("mile(s)", "mi"), ("miles", "mi")]

/-- `_scrape_area.units`. -/
def areaUnits : List (String × String) :=
  [("hectare(s)", "ha"), ("hectares", "ha"), ("ha", "ha"),
   ("acre(s)", "acre"), ("acres", "acre")]

/-- `_scrape_area`: find the `dt` matching the area label; if present,
lowercase and whitespace-split the companion `dd` text, convert token 0
with `float` (an empty split raises an `IndexError`, a malformed number a
`ValueError`) and push token 1 through the unit table (a missing token
raises an `IndexError`, an unlisted one a `KeyError`).  The float is
represented by its source token, since the program only compares the
result against `None`. -/
def _scrape_area (d : Doc) : Except Err (Option String × Option String) :=
  match d.areaText with
  | Option.none => Except.ok (Option.none, Option.none)
  | some s =>
    match pyTokens s with
    | [] => Except.error Err.indexError
    | v :: rest =>
      if isFloatLit v then
        match rest with
        | [] => Except.error Err.indexError
        | u :: _ =>
          match areaUnits.lookup u with
          | Option.none => Except.error (Err.keyError u)
          | some abbr => Except.ok (some v, some abbr)
      else Except.error (Err.valueError "could not convert string to float")

/-- `_scrape_duration`: find the span titled with the duration label; if
present, take its `Badge-label` child's text. -/
def _scrape_duration (d : Doc) : Except Err (Option String) :=
  match d.durationSpan with
  | Option.none => Except.ok Option.none
  | some Option.none => Except.error Err.attributeError
  | some (some s) => Except.ok (some s)

/-- `_scrape_observers`: `.text` on a missing owner span raises an
`AttributeError`; iterating a missing `div#checklist-others` raises a
`TypeError`; each child's span text is appended, a failing per-child
lookup being swallowed by the bare `except`.  The owner span is the one
whose string is "Owner", so its text is that string. -/
def _scrape_observers (d : Doc) : Except Err (List String) :=
  if d.ownerPresent then
    match d.othersDiv with
    | Option.none => Except.error Err.typeError
    | some l => Except.ok ("Owner" :: l.filterMap id)
  else Except.error Err.attributeError

/-- `_scrape_comment`: the body is a bare lookup whose result is
discarded; the function always falls through and returns `None`. -/
def _scrape_comment (_ : Doc) : Except Err (Option String) :=
  Except.ok Option.none

/-- `_scrape_species`: text of the span inside the
`Observation-species` div (`AttributeError` when either is absent). -/
def _scrape_species (e : EntryNode) : Except Err String :=
  match e.speciesText with
  | Option.none => Except.error Err.attributeError
  | some s => Except.ok s

/-- `_scrape_count`: last span inside the `Observation-numberObserved`
div (`AttributeError` when the div is absent, `IndexError` when it holds
no span); the text is stripped and lowercased; the literal `x` leaves the
count as `None`, anything else goes through `int`. -/
def _scrape_count (e : EntryNode) : Except Err (Option Int) :=
  match e.numberDiv with
  | Option.none => Except.error Err.attributeError
  | some spans =>
    match spans.getLast? with
    | Option.none => Except.error Err.indexError
    | some t =>
      let value := pyLower (pyStrip t)
      if value = "x" then Except.ok Option.none
      else
        match pyInt value with
        | Option.none => Except.error (Err.valueError "invalid literal for int")
        | some n => Except.ok (some n)

/-- One scraped species/count entry. -/
structure Entry where
  species : String
  count : Option Int
deriving DecidableEq, Repr

/-- `_scrape_entry`. -/
def _scrape_entry (e : EntryNode) : Except Err Entry := do
  let s ← _scrape_species e
  let c ← _scrape_count e
  Except.ok { species := s, count := c }

/-- `_scrape_entries`: a missing `div#list` yields the empty list. -/
def _scrape_entries (d : Doc) : Except Err (List Entry) :=
  match d.listDiv with
  | Option.none => Except.ok []
  | some tags => tags.mapM _scrape_entry

/-- `_scrape_complete`: text of the first `Badge-label` span (an empty
`find_all` result makes `[0]` raise an `IndexError`), compared with
"Complete". -/
def _scrape_complete (d : Doc) : Except Err Bool :=
  match d.badgeLabels.head? with
  | Option.none => Except.error Err.indexError
  | some v => Except.ok (v = "Complete")

/-! ### Location assembly -/

/-- `node.attrs["href"].split("/")[2]` on a link. -/
def hrefPart2 (href : String) : Except Err String :=
  match (pySplit '/' href).get? 2 with
  | Option.none => Except.error Err.indexError
  | some s => Except.ok s

/-- `_scrape_site`: span text of the first hotspot link. -/
def _scrape_site (d : Doc) : Except Err String :=
  match d.hotspotLink with
  | Option.none => Except.error Err.attributeError
  | some l =>
    match l.spanText with
    | Option.none => Except.error Err.attributeError
    | some t => Except.ok t

/-- `_scrape_location_identifier`: third `/`-component of the first
hotspot link's `href`. -/
def _scrape_location_identifier (d : Doc) : Except Err String :=
  match d.hotspotLink with
  | Option.none => Except.error Err.attributeError
  | some l => hrefPart2 l.href

/-- `_scrape_subnational2`: text of the first region link. -/
def _scrape_subnational2 (d : Doc) : Except Err String :=
  match d.regionLinks.head? with
  | Option.none => Except.error Err.attributeError
  | some l => Except.ok l.text

/-- `_scrape_subnational2_code`. -/
def _scrape_subnational2_code (d : Doc) : Except Err String :=
  match d.regionLinks.head? with
  | Option.none => Except.error Err.attributeError
  | some l => hrefPart2 l.href

/-- `_scrape_subnational1`: span text of the second region link
(`find_all(...)[1]` raises an `IndexError` when there is no second). -/
def _scrape_subnational1 (d : Doc) : Except Err String :=
  match d.regionLinks.get? 1 with
  | Option.none => Except.error Err.indexError
  | some l =>
    match l.spanText with
    | Option.none => Except.error Err.attributeError
    | some t => Except.ok t

/-- `_scrape_subnational1_code`. -/
def _scrape_subnational1_code (d : Doc) : Except Err String :=
  match d.regionLinks.get? 1 with
  | Option.none => Except.error Err.indexError
  | some l => hrefPart2 l.href

/-- `_scrape_country`: span text of the third region link. -/
def _scrape_country (d : Doc) : Except Err String :=
  match d.regionLinks.get? 2 with
  | Option.none => Except.error Err.indexError
  | some l =>
    match l.spanText with
    | Option.none => Except.error Err.attributeError
    | some t => Except.ok t

/-- `_scrape_country_code`. -/
def _scrape_country_code (d : Doc) : Except Err String :=
  match d.regionLinks.get? 2 with
  | Option.none => Except.error Err.indexError
  | some l => hrefPart2 l.href

/-- `_scrape_coords`: `href` of the `a.u-inset-squish-sm` link
(`.attrs` on `None` raises an `AttributeError`), split on `=`, item 2. -/
def _scrape_coords (d : Doc) : Except Err String :=
  match d.coordsHref with
  | Option.none => Except.error Err.attributeError
  | some href =>
    match (pySplit '=' href).get? 2 with
    | Option.none => Except.error Err.indexError
    | some s => Except.ok s

/-- The location dict. -/
structure Location where
  name : String
  identifier : String
  subnational2 : String
  subnational2_code : String
  subnational1 : String
  subnational1_code : String
  country : String
  country_code : String
  lat : String
  lon : String
deriving DecidableEq, Repr

/-- `_scrape_location`: `find_all("section")[2]` is evaluated first and
its result bound to an unused local (an `IndexError` when the page has
fewer than three sections); then the coordinate string is split on `,`
and the location dict is built field by field, `coords[1]` raising an
`IndexError` when the split produced a single piece. -/
def _scrape_location (d : Doc) : Except Err Location :=
  if d.sections < 3 then Except.error Err.indexError
  else do
    let c ← _scrape_coords d
    let coords := pySplit ',' c
    let name ← _scrape_site d
    let ident ← _scrape_location_identifier d
    let sn2 ← _scrape_subnational2 d
    let sn2c ← _scrape_subnational2_code d
    let sn1 ← _scrape_subnational1 d
    let sn1c ← _scrape_subnational1_code d
    let ctry ← _scrape_country d
    let cc ← _scrape_country_code d
    let lat ← match coords.get? 0 with
      | Option.none => Except.error Err.indexError
      | some x => Except.ok x
    let lon ← match coords.get? 1 with
      | Option.none => Except.error Err.indexError
      | some x => Except.ok x
    Except.ok { name := name, identifier := ident, subnational2 := sn2,
                subnational2_code := sn2c, subnational1 := sn1,
                subnational1_code := sn1c, country := ctry,
                country_code := cc, lat := lat, lon := lon }

/-! ### Protocol policies -/

/-- In `_distance_protocol` and `_historical_observations` the scraped
distance — a string or `None` — is compared with the tuple
`(None, None)`.  Values of different Python types are never equal, so the
comparison is always false. -/
def distanceEqNonePair (_ : Option String) : Bool := false

/-- `_point_protocol`: build the dict (every extractor runs, any
exception propagating), then reject a falsy time, duration or party
size. -/
def _point_protocol (d : Doc) : Except Err Rec := do
  let time ← _scrape_time d
  let duration ← _scrape_duration d
  let party ← _scrape_party_size d
  let obs ← _scrape_observers d
  if pyTruthy time = false then
    Except.error (Err.valueError "the time field was not found")
  else if pyTruthy duration = false then
    Except.error (Err.valueError "the duration field was not found")
  else if party = "" then
    Except.error (Err.valueError "the party size field was not found")
  else
    Except.ok [("time", optVal time), ("duration", optVal duration),
               ("party_size", Val.str party), ("observers", Val.strs obs)]

/-- `_distance_protocol`: build the dict, then reject a falsy time, a
`None` duration, a distance equal to `(None, None)` (a test that never
fires, the distance being a string or `None`) and a falsy party size. -/
def _distance_protocol (d : Doc) : Except Err Rec := do
  let time ← _scrape_time d
  let duration ← _scrape_duration d
  let dist ← _scrape_distance d
  let party ← _scrape_party_size d
  let obs ← _scrape_observers d
  if pyTruthy time = false then
    Except.error (Err.valueError "the time field was not found")
  else if duration = Option.none then
    Except.error (Err.valueError "the duration field was not found")
  else if distanceEqNonePair dist then
    Except.error (Err.valueError "the distance field was not found")
  else if party = "" then
    Except.error (Err.valueError "the party size field was not found")
  else
    Except.ok [("time", optVal time), ("duration", optVal duration),
               ("distance", optVal dist), ("party_size", Val.str party),
               ("observers", Val.strs obs)]

/-- `_incidental_observations`: observers always; time appended only when
truthy. -/
def _incidental_observations (d : Doc) : Except Err Rec := do
  let obs ← _scrape_observers d
  let time ← _scrape_time d
  Except.ok (if pyTruthy time then
               [("observers", Val.strs obs), ("time", optVal time)]
             else [("observers", Val.strs obs)])

/-- `_historical_observations`: observers always; time, duration, area
and party size appended only when truthy (or, for the pairs, different
from `(None, None)` — a test the distance value always passes). -/
def _historical_observations (d : Doc) : Except Err Rec := do
  let obs ← _scrape_observers d
  let r0 : Rec := [("observers", Val.strs obs)]
  let time ← _scrape_time d
  let r1 := if pyTruthy time then r0 ++ [("time", optVal time)] else r0
  let duration ← _scrape_duration d
  let r2 := if pyTruthy duration then r1 ++ [("duration", optVal duration)] else r1
  let dist ← _scrape_distance d
  let r3 := if distanceEqNonePair dist = false then r2 ++ [("distance", optVal dist)] else r2
  let area ← _scrape_area d
  let r4 := if area ≠ (Option.none, Option.none) then
              r3 ++ [("area", Val.pair area.1 area.2)] else r3
  let party ← _scrape_party_size d
  let r5 := if party ≠ "" then r4 ++ [("party_size", Val.str party)] else r4
  Except.ok r5

/-- `_area_protocol(include_area)`: build the dict (the area extractor
runs in both variants), reject a falsy time; with `include_area` reject
an absent area pair, without it delete the area key; then reject a `None`
duration and a falsy party size. -/
def _area_protocol (include_area : Bool) (d : Doc) : Except Err Rec := do
  let time ← _scrape_time d
  let area ← _scrape_area d
  let duration ← _scrape_duration d
  let party ← _scrape_party_size d
  let obs ← _scrape_observers d
  if pyTruthy time = false then
    Except.error (Err.valueError "the time field was not found")
  else if include_area ∧ area = (Option.none, Option.none) then
    Except.error (Err.valueError "the area field was not found")
  else if duration = Option.none then
    Except.error (Err.valueError "the duration field was not found")
  else if party = "" then
    Except.error (Err.valueError "the party size field was not found")
  else
    Except.ok (if include_area then
                 [("time", optVal time), ("area", Val.pair area.1 area.2),
                  ("duration", optVal duration), ("party_size", Val.str party),
                  ("observers", Val.strs obs)]
               else
                 [("time", optVal time), ("duration", optVal duration),
                  ("party_size", Val.str party), ("observers", Val.strs obs)])

/-- The five policy shapes the registry binds protocol names to;
`_area_protocol`'s closures become the `area` constructor's flag. -/
inductive Policy where
  | point
  | distance
  | incidental
  | historical
  | area (includeArea : Bool)
deriving DecidableEq, Repr

/-- Apply a policy to a document. -/
def runPolicy : Policy → Doc → Except Err Rec
  | Policy.point => _point_protocol
  | Policy.distance => _distance_protocol
  | Policy.incidental => _incidental_observations
  | Policy.historical => _historical_observations
  | Policy.area b => _area_protocol b

/-- `_protocols`: the registry, in source order. -/
def _protocols : List (String × Policy) :=
  [("Stationary", Policy.point),
   ("Traveling", Policy.distance),
   ("Incidental", Policy.incidental),
   ("Historical", Policy.historical),
   ("Area", Policy.area true),
   ("Banding", Policy.area false),
   ("eBird Pelagic Protocol", Policy.distance),
   ("Nocturnal Flight Call Count", Policy.point),
   ("Random", Policy.distance),
   ("CWC Point Count", Policy.point),
   ("CWC Area Count", Policy.area true),
   ("PROALAS", Policy.point),
   ("TNC California Waterbird Count", Policy.point),
   ("Rusty BlackbirdSpring Migration Blitz", Policy.distance),
   ("California Brown Pelican Survey", Policy.distance)]

/-- `_scrape_protocol_name`: text of the protocol heading span. -/
def _scrape_protocol_name (d : Doc) : Except Err String :=
  match d.protocolName with
  | Option.none => Except.error Err.attributeError
  | some s => Except.ok s

/-- `_scrape_protocol`: put the name in the dict, index the registry with
it (a missing key raises a `KeyError` carrying the key) and merge in the
policy's fields. -/
def _scrape_protocol (d : Doc) : Except Err Rec := do
  let name ← _scrape_protocol_name d
  match _protocols.lookup name with
  | Option.none => Except.error (Err.keyError name)
  | some p => do
    let r ← runPolicy p d
    Except.ok (("name", Val.str name) :: r)

/-- The full checklist record. -/
structure Checklist where
  identifier : String
  date : PyDateTime
  protocol : Rec
  location : Location
  entries : List Entry
  comment : Option String
  complete : Bool
deriving DecidableEq, Repr

/-- `_scrape_checklist`: assemble the record, any sub-extractor failure
propagating unmodified. -/
def _scrape_checklist (d : Doc) : Except Err Checklist := do
  let ident ← _scrape_identifier d
  let date ← _scrape_date d
  let proto ← _scrape_protocol d
  let loc ← _scrape_location d
  let es ← _scrape_entries d
  let com ← _scrape_comment d
  let comp ← _scrape_complete d
  Except.ok { identifier := ident, date := date, protocol := proto,
              location := loc, entries := es, comment := com,
              complete := comp }

/-! ### A well-formed baseline document used by concrete witnesses -/

/-- A checklist page with every field present and well-formed. -/
def doc0 : Doc :=
  { subIdValue := some "S62633426",
    timeDatetime := some "2023-06-01T07:30",
    protocolName := some "Stationary",
    sections := 3,
    hotspotLink := some { spanText := some "Central Park",
                          href := "/hotspot/L123456/activity" },
    regionLinks :=
      [{ text := "New York County", spanText := some "New York County",
         href := "/region/US-NY-061/activity" },
       { text := "New York", spanText := some "New York",
         href := "/region/US-NY/activity" },
       { text := "United States", spanText := some "United States",
         href := "/region/US/activity" }],
    coordsHref := some "https://maps.example/search/?api=1&query=40.78,-73.97",
    durationSpan := some (some "30"),
    distanceSpan := some (some "2 kilometers"),
    areaText := some "2.5 hectares",
    partySizeText := some "2",
    ownerPresent := true,
    othersDiv := some [],
    listDiv := some [],
    badgeLabels := ["Complete"] }

/-! ### Shared lemmas -/

/-- Binding a success in `Except` applies the continuation. -/
theorem ebind_ok {ε α β : Type} (a : α) (f : α → Except ε β) :
    (Except.ok a >>= f) = f a := rfl

/-- Binding a failure in `Except` propagates it. -/
theorem ebind_err {ε α β : Type} (e : ε) (f : α → Except ε β) :
    ((Except.error e : Except ε α) >>= f) = Except.error e := rfl

/-- `None` is falsy. -/
theorem pyTruthy_none : pyTruthy Option.none = false := rfl

/-- A digit character is at most `'9'`. -/
theorem digit_le_nine {c : Char} (h : c.isDigit = true) : c ≤ '9' := by
  simp [Char.isDigit] at h
  exact h.2

/-- Lowercasing leaves a digit unchanged. -/
theorem pyLowerChar_digit {c : Char} (h : c.isDigit = true) : pyLowerChar c = c := by
  unfold pyLowerChar
  rw [if_neg]
  intro hc
  exact absurd (le_trans hc.1 (digit_le_nine h)) (by decide)

/-- Lowercasing leaves a digit string unchanged. -/
theorem map_pyLowerChar_digits {cs : List Char}
    (h : cs.all (fun c => c.isDigit) = true) : cs.map pyLowerChar = cs := by
  induction cs with
  | nil => rfl
  | cons c rest ih =>
    simp only [List.all_cons, Bool.and_eq_true] at h
    simp [pyLowerChar_digit h.1, ih h.2]

/-- A digit is not whitespace. -/
theorem digit_not_ws {c : Char} (h : c.isDigit = true) : c.isWhitespace = false := by
  simp [Char.isDigit] at h
  simp only [Char.isWhitespace]
  simp only [Bool.or_eq_false_iff, decide_eq_false_iff_not]
  refine ⟨⟨⟨?_, ?_⟩, ?_⟩, ?_⟩ <;>
    (intro he; subst he; exact absurd h (by decide))

/-- Dropping leading whitespace leaves a digit string unchanged. -/
theorem dropWhile_ws_digits {cs : List Char}
    (h : cs.all (fun c => c.isDigit) = true) :
    cs.dropWhile (fun c => c.isWhitespace) = cs := by
  cases cs with
  | nil => rfl
  | cons c rest =>
    simp only [List.all_cons, Bool.and_eq_true] at h
    simp [List.dropWhile_cons, digit_not_ws h.1]

/-- Stripping leaves a digit string unchanged. -/
theorem pyStrip_digits {cs : List Char}
    (h : cs.all (fun c => c.isDigit) = true) :
    pyStrip (String.mk cs) = String.mk cs := by
  unfold pyStrip
  simp only [String.data]
  rw [dropWhile_ws_digits h, dropWhile_ws_digits (by simpa using h),
      List.reverse_reverse]

/-- Lowercasing leaves a digit string unchanged. -/
theorem pyLower_digits {cs : List Char}
    (h : cs.all (fun c => c.isDigit) = true) :
    pyLower (String.mk cs) = String.mk cs := by
  unfold pyLower
  simp only [String.data]
  rw [map_pyLowerChar_digits h]

/-- `int` on a nonempty digit string yields its value. -/
theorem pyInt_digits {cs : List Char} (h : digitsOnly cs = true) :
    pyInt (String.mk cs) = some (Int.ofNat (digitsToNat cs)) := by
  unfold pyInt
  simp only [String.data]
  have hall : cs.all (fun c => c.isDigit) = true := by
    unfold digitsOnly at h
    exact (Bool.and_eq_true _ _ |>.mp h).2
  split
  · simp at hall
  · simp at hall
  · rw [if_pos h]

/-- A nonempty digit string is not the token `x`. -/
theorem digits_ne_x {cs : List Char} (h : digitsOnly cs = true) :
    String.mk cs ≠ "x" := by
  intro he
  have hcs : cs = ['x'] := congrArg String.data he
  subst hcs
  simp [digitsOnly] at h

/-! ### Claim C6 -/

/-- Claim C6, counterexample: on a document with no timestamp node the
time extractor raises an `AttributeError` instead of returning the
absence marker. -/
theorem time_missing_node_raises :
    _scrape_time { doc0 with timeDatetime := Option.none } =
      Except.error Err.attributeError ∧
    _scrape_time { doc0 with timeDatetime := Option.none } ≠
      Except.ok Option.none :=
  ⟨rfl, fun hh => Except.noConfusion hh⟩

/-- Claim C6, amended: the time extractor returns the absence marker when
the timestamp node is present but carries an empty timestamp value; when
the timestamp node itself is absent, the extractor raises an
`AttributeError` rather than returning the absence marker. -/
theorem time_absent_vs_empty (d : Doc) :
    (d.timeDatetime = Option.none →
      _scrape_time d = Except.error Err.attributeError) ∧
    (d.timeDatetime = some "" → _scrape_time d = Except.ok Option.none) := by
  constructor
  · intro h; simp [_scrape_time, h]
  · intro h; simp [_scrape_time, h]

/-- Witness for `time_absent_vs_empty` at concrete documents. -/
theorem time_absent_vs_empty_witness :
    _scrape_time { doc0 with timeDatetime := Option.none } =
      Except.error Err.attributeError ∧
    _scrape_time { doc0 with timeDatetime := some "" } =
      Except.ok Option.none :=
  ⟨(time_absent_vs_empty { doc0 with timeDatetime := Option.none }).1 rfl,
   (time_absent_vs_empty { doc0 with timeDatetime := some "" }).2 rfl⟩

/-! ### Claim C8 -/

/-- Claim C8: when the timestamp node's value matches `YYYY-MM-DDTHH:MM`,
the date extractor returns the parsed timestamp and the time extractor
returns exactly its 12-hour clock rendering — the two extractors agree on
the underlying timestamp. -/
theorem date_time_consistent (d : Doc) (v : String) (dt : PyDateTime)
    (h : d.timeDatetime = some v) (hp : parseTs v = some dt) :
    _scrape_date d = Except.ok dt ∧
    _scrape_time d = Except.ok (some (strftimeIMp dt)) := by
  have hne : v ≠ "" := by
    intro he
    subst he
    exact Option.noConfusion hp
  constructor
  · simp [_scrape_date, h, hp]
  · simp [_scrape_time, h, hne, hp]

/-- Witness for `date_time_consistent` at a concrete timestamp. -/
theorem date_time_consistent_witness :
    _scrape_date doc0 = Except.ok ⟨2023, 6, 1, 7, 30⟩ ∧
    _scrape_time doc0 = Except.ok (some "07:30 AM") :=
  date_time_consistent doc0 "2023-06-01T07:30" ⟨2023, 6, 1, 7, 30⟩ rfl rfl

/-! ### Claim C10 -/

/-- Claim C10: location assembly indexes the third section first, so a
document with fewer than three sections fails with an `IndexError`; yet
no returned field depends on that section — past the bound check the
result is independent of the section count. -/
theorem location_third_section (d : Doc) :
    (d.sections < 3 → _scrape_location d = Except.error Err.indexError) ∧
    (∀ n m, 3 ≤ n → 3 ≤ m →
      _scrape_location { d with sections := n } =
        _scrape_location { d with sections := m }) := by
  constructor
  · intro h
    simp [_scrape_location, h]
  · intro n m hn hm
    unfold _scrape_location
    rw [if_neg (Nat.not_lt.mpr hn), if_neg (Nat.not_lt.mpr hm)]
    rfl

/-- Witness for `location_third_section` at concrete documents. -/
theorem location_third_section_witness :
    _scrape_location { doc0 with sections := 2 } =
      Except.error Err.indexError ∧
    _scrape_location { doc0 with sections := 3 } =
      _scrape_location { doc0 with sections := 7 } :=
  ⟨(location_third_section { doc0 with sections := 2 }).1 (by decide),
   (location_third_section doc0).2 3 7 (by decide) (by decide)⟩

/-! ### Claim C2 -/

/-- Claim C2: a protocol display name that is not a key of the registry
makes protocol extraction fail with a `KeyError` carrying the
unrecognized value; no default policy is applied. -/
theorem unregistered_protocol_fails (d : Doc) (n : String)
    (h : d.protocolName = some n) (hn : _protocols.lookup n = Option.none) :
    _scrape_protocol d = Except.error (Err.keyError n) := by
  simp [_scrape_protocol, _scrape_protocol_name, h, hn, ebind_ok]

/-- Witness for `unregistered_protocol_fails` at a concrete name. -/
theorem unregistered_protocol_fails_witness :
    _scrape_protocol { doc0 with protocolName := some "Casual" } =
      Except.error (Err.keyError "Casual") :=
  unregistered_protocol_fails _ "Casual" rfl (by decide)

/-! ### Claim C7 -/

/-- Claim C7: the count extractor maps a last badge text that is the
literal token `x` in either letter case to the absence marker — never to
zero — and a decimal-numeral badge text to its integer value. -/
theorem count_x_absent_numeral_int (e : EntryNode) (spans : List String)
    (t : String) (h : e.numberDiv = some spans)
    (hl : spans.getLast? = some t) :
    ((t = "x" ∨ t = "X") →
      _scrape_count e = Except.ok Option.none ∧
      _scrape_count e ≠ Except.ok (some 0)) ∧
    (digitsOnly t.data = true →
      _scrape_count e = Except.ok (some (Int.ofNat (digitsToNat t.data)))) := by
  constructor
  · intro hx
    have hcount : _scrape_count e = Except.ok Option.none := by
      cases hx with
      | inl hx =>
        subst hx
        simp [_scrape_count, h, hl, show pyLower (pyStrip "x") = "x" from rfl]
      | inr hx =>
        subst hx
        simp [_scrape_count, h, hl, show pyLower (pyStrip "X") = "x" from rfl]
    refine ⟨hcount, ?_⟩
    rw [hcount]
    intro hh
    exact Option.noConfusion (Except.ok.inj hh)
  · intro hd
    obtain ⟨cs⟩ := t
    have hall : cs.all (fun c => c.isDigit) = true := by
      unfold digitsOnly at hd
      exact (Bool.and_eq_true _ _ |>.mp hd).2
    simp [_scrape_count, h, hl, pyStrip_digits hall, pyLower_digits hall,
          digits_ne_x hd, pyInt_digits hd]

/-- Witness for `count_x_absent_numeral_int` on concrete badge texts. -/
theorem count_x_absent_numeral_int_witness :
    (_scrape_count { speciesText := some "Blue Jay",
                     numberDiv := some ["Number observed:", "X"] } =
       Except.ok Option.none ∧
     _scrape_count { speciesText := some "Blue Jay",
                     numberDiv := some ["Number observed:", "X"] } ≠
       Except.ok (some 0)) ∧
    _scrape_count { speciesText := some "Blue Jay",
                    numberDiv := some ["Number observed:", "12"] } =
      Except.ok (some 12) :=
  ⟨(count_x_absent_numeral_int
      { speciesText := some "Blue Jay", numberDiv := some ["Number observed:", "X"] }
      ["Number observed:", "X"] "X" rfl rfl).1 (Or.inr rfl),
   (count_x_absent_numeral_int
      { speciesText := some "Blue Jay", numberDiv := some ["Number observed:", "12"] }
      ["Number observed:", "12"] "12" rfl rfl).2 (by decide)⟩

/-! ### Claim C4 -/

/-- Claim C4: a document whose protocol is "Incidental" and whose time
field is not present (the time extractor reports absence) extracts
without failure, and the protocol record's policy fields are exactly the
observers. -/
theorem incidental_time_optional (d : Doc) (o : List String)
    (h : d.protocolName = some "Incidental")
    (ht : _scrape_time d = Except.ok Option.none)
    (ho : _scrape_observers d = Except.ok o) :
    _scrape_protocol d =
      Except.ok [("name", Val.str "Incidental"), ("observers", Val.strs o)] := by
  have hlook : _protocols.lookup "Incidental" = some Policy.incidental := by decide
  simp [_scrape_protocol, _scrape_protocol_name, h, hlook, ebind_ok, runPolicy,
        _incidental_observations, ht, ho, pyTruthy_none]

/-- Witness for `incidental_time_optional` at a concrete document. -/
theorem incidental_time_optional_witness :
    _scrape_protocol { doc0 with protocolName := some "Incidental",
                                 timeDatetime := some "" } =
      Except.ok [("name", Val.str "Incidental"),
                 ("observers", Val.strs ["Owner"])] :=
  incidental_time_optional _ ["Owner"] rfl rfl rfl

/-! ### Claim C3 -/

/-- Claim C3, counterexample: a distance badge whose unit token is not in
the distance table is returned verbatim — extraction neither normalizes
the unit nor fails with a lookup error. -/
theorem distance_unit_not_normalized :
    _scrape_distance { doc0 with distanceSpan := some (some "5 parsecs") } =
      Except.ok (some "5 parsecs") := rfl

/-- Claim C3, amended: the area extractor normalizes the trailing unit
token through its lookup table — every listed key maps to its documented
abbreviation — and fails with a `KeyError` on an unlisted token; the
distance extractor performs no unit normalization at all: its lookup
table (whose keys also map to the documented abbreviations) is never
consulted, and the badge text is returned verbatim whatever its unit
token. -/
theorem unit_table_normalization (d : Doc) :
    (distanceUnits.lookup "kilometer(s)" = some "km" ∧
     distanceUnits.lookup "kilometre(s)" = some "km" ∧
     distanceUnits.lookup "km(s)" = some "km" ∧
     distanceUnits.lookup "kilometers" = some "km" ∧
     distanceUnits.lookup "kilometres" = some "km" ∧
     distanceUnits.lookup "km" = some "km" ∧
     distanceUnits.lookup "kms" = some "km" ∧
     distanceUnits.lookup "mile(s)" = some "mi" ∧
     distanceUnits.lookup "miles" = some "mi") ∧
    (areaUnits.lookup "hectare(s)" = some "ha" ∧
     areaUnits.lookup "hectares" = some "ha" ∧
     areaUnits.lookup "ha" = some "ha" ∧
     areaUnits.lookup "acre(s)" = some "acre" ∧
     areaUnits.lookup "acres" = some "acre") ∧
    (∀ s v u r abbr, d.areaText = some s → pyTokens s = v :: u :: r →
      isFloatLit v = true → areaUnits.lookup u = some abbr →
      _scrape_area d = Except.ok (some v, some abbr)) ∧
    (∀ s v u r, d.areaText = some s → pyTokens s = v :: u :: r →
      isFloatLit v = true → areaUnits.lookup u = Option.none →
      _scrape_area d = Except.error (Err.keyError u)) ∧
    (∀ t, d.distanceSpan = some (some t) →
      _scrape_distance d = Except.ok (some t)) := by
  refine ⟨by decide, by decide, ?_, ?_, ?_⟩
  · intro s v u r abbr ha htok hf hu
    simp [_scrape_area, ha, htok, hf, hu]
  · intro s v u r ha htok hf hu
    simp [_scrape_area, ha, htok, hf, hu]
  · intro t hd
    simp [_scrape_distance, hd]

/-- Witness for `unit_table_normalization` at concrete documents. -/
theorem unit_table_normalization_witness :
    _scrape_area { doc0 with areaText := some "2.5 Hectares" } =
      Except.ok (some "2.5", some "ha") ∧
    _scrape_area { doc0 with areaText := some "2.5 furlongs" } =
      Except.error (Err.keyError "furlongs") ∧
    _scrape_distance { doc0 with distanceSpan := some (some "3 parsecs") } =
      Except.ok (some "3 parsecs") :=
  ⟨(unit_table_normalization { doc0 with areaText := some "2.5 Hectares"
     }).2.2.1 "2.5 Hectares" "2.5" "hectares" [] "ha" rfl rfl rfl rfl,
   (unit_table_normalization { doc0 with areaText := some "2.5 furlongs"
     }).2.2.2.1 "2.5 furlongs" "2.5" "furlongs" [] rfl rfl rfl rfl,
   (unit_table_normalization { doc0 with distanceSpan := some (some "3 parsecs")
     }).2.2.2.2 "3 parsecs" rfl⟩

/-! ### Claim C9 -/

/-- Claim C9: under the Banding policy the area extractor still runs
before the area field is discarded, so a present area field whose value
part is not numeric, or whose unit token is not in the area table, aborts
the whole extraction with the parse or lookup failure — even though area
would never appear in the result. -/
theorem banding_area_scrape_aborts (d : Doc) (s v u : String)
    (r : List String) (time : Option String)
    (ha : d.areaText = some s) (htok : pyTokens s = v :: u :: r)
    (ht : _scrape_time d = Except.ok time) :
    (isFloatLit v = false →
      _area_protocol false d =
        Except.error (Err.valueError "could not convert string to float")) ∧
    (isFloatLit v = true → areaUnits.lookup u = Option.none →
      _area_protocol false d = Except.error (Err.keyError u)) := by
  constructor
  · intro hf
    have harea : _scrape_area d =
        Except.error (Err.valueError "could not convert string to float") := by
      simp [_scrape_area, ha, htok, hf]
    simp [_area_protocol, ht, harea, ebind_ok, ebind_err]
  · intro hf hu
    have harea : _scrape_area d = Except.error (Err.keyError u) := by
      simp [_scrape_area, ha, htok, hf, hu]
    simp [_area_protocol, ht, harea, ebind_ok, ebind_err]

/-- Witness for `banding_area_scrape_aborts` at concrete documents. -/
theorem banding_area_scrape_aborts_witness :
    _area_protocol false { doc0 with areaText := some "many hectares" } =
      Except.error (Err.valueError "could not convert string to float") ∧
    _area_protocol false { doc0 with areaText := some "5 furlongs" } =
      Except.error (Err.keyError "furlongs") :=
  ⟨(banding_area_scrape_aborts { doc0 with areaText := some "many hectares" }
      "many hectares" "many" "hectares" [] (some "07:30 AM")
      rfl rfl rfl).1 rfl,
   (banding_area_scrape_aborts { doc0 with areaText := some "5 furlongs" }
      "5 furlongs" "5" "furlongs" [] (some "07:30 AM")
      rfl rfl rfl).2 rfl rfl⟩

/-! ### Claim C1 -/

/-- Claim C1, counterexample: under the distance policy, a document with
every mandatory field present except distance does not fail — the policy
returns a record with distance `None` — and under the point policy a
missing duration raises a message naming only the field, never the
protocol. -/
theorem distance_missing_not_fatal :
    _distance_protocol { doc0 with distanceSpan := Option.none } =
      Except.ok [("time", Val.str "07:30 AM"), ("duration", Val.str "30"),
                 ("distance", Val.none), ("party_size", Val.str "2"),
                 ("observers", Val.strs ["Owner"])] ∧
    _point_protocol { doc0 with durationSpan := Option.none } =
      Except.error (Err.valueError "the duration field was not found") :=
  ⟨rfl, rfl⟩

/-- Claim C1, amended: removing a single mandatory field makes the point,
distance and area policies fail — with a `ValueError` naming the field
(but never the protocol) when the extractor reports absence (an empty
time value, a missing duration badge, a missing area field, an empty
party-size text), and with an unnamed `AttributeError` when the node
lookup itself fails (a missing time node, a missing party-size label, a
missing owner) — except that under the distance policies a missing
distance does not fail at all: a record with distance `None` is
returned. -/
theorem mandatory_field_failures (d : Doc) :
    (d.timeDatetime = Option.none →
      _point_protocol d = Except.error Err.attributeError) ∧
    (∀ dur party obs, _scrape_time d = Except.ok Option.none →
      _scrape_duration d = Except.ok dur →
      _scrape_party_size d = Except.ok party →
      _scrape_observers d = Except.ok obs →
      _point_protocol d =
        Except.error (Err.valueError "the time field was not found")) ∧
    (∀ time party obs, _scrape_time d = Except.ok time →
      pyTruthy time = true → d.durationSpan = Option.none →
      _scrape_party_size d = Except.ok party →
      _scrape_observers d = Except.ok obs →
      _point_protocol d =
        Except.error (Err.valueError "the duration field was not found")) ∧
    (∀ time dur, _scrape_time d = Except.ok time →
      _scrape_duration d = Except.ok dur → d.partySizeText = Option.none →
      _point_protocol d = Except.error Err.attributeError) ∧
    (∀ time dur obs, _scrape_time d = Except.ok time →
      pyTruthy time = true → _scrape_duration d = Except.ok (some dur) →
      dur ≠ "" → _scrape_party_size d = Except.ok "" →
      _scrape_observers d = Except.ok obs →
      _point_protocol d =
        Except.error (Err.valueError "the party size field was not found")) ∧
    (∀ time dur party, _scrape_time d = Except.ok time →
      _scrape_duration d = Except.ok dur →
      _scrape_party_size d = Except.ok party → d.ownerPresent = false →
      _point_protocol d = Except.error Err.attributeError) ∧
    (∀ time dur party obs, _scrape_time d = Except.ok time →
      pyTruthy time = true → _scrape_duration d = Except.ok (some dur) →
      d.distanceSpan = Option.none →
      _scrape_party_size d = Except.ok party → party ≠ "" →
      _scrape_observers d = Except.ok obs →
      _distance_protocol d =
        Except.ok [("time", optVal time), ("duration", Val.str dur),
                   ("distance", Val.none), ("party_size", Val.str party),
                   ("observers", Val.strs obs)]) ∧
    (∀ time dur party obs, _scrape_time d = Except.ok time →
      pyTruthy time = true → d.areaText = Option.none →
      _scrape_duration d = Except.ok (some dur) →
      _scrape_party_size d = Except.ok party → party ≠ "" →
      _scrape_observers d = Except.ok obs →
      _area_protocol true d =
        Except.error (Err.valueError "the area field was not found")) ∧
    (d.ownerPresent = false →
      _incidental_observations d = Except.error Err.attributeError ∧
      _historical_observations d = Except.error Err.attributeError) := by
  refine ⟨?_, ?_, ?_, ?_, ?_, ?_, ?_, ?_, ?_⟩
  · intro h
    simp [_point_protocol, _scrape_time, h, ebind_err]
  · intro dur party obs ht hd hp ho
    simp [_point_protocol, ht, hd, hp, ho, ebind_ok, pyTruthy_none]
  · intro time party obs ht htt hd hp ho
    simp [_point_protocol, _scrape_duration, ht, htt, hd, hp, ho, ebind_ok,
          pyTruthy_none]
  · intro time dur ht hd hp
    simp [_point_protocol, _scrape_party_size, ht, hd, hp, ebind_ok, ebind_err]
  · intro time dur obs ht htt hd hdur hp ho
    have hptd : pyTruthy (some dur) = true := by simp [pyTruthy, hdur]
    simp [_point_protocol, ht, htt, hd, hptd, hp, ho, ebind_ok]
  · intro time dur party ht hd hp how
    simp [_point_protocol, _scrape_observers, ht, hd, hp, how, ebind_ok,
          ebind_err]
  · intro time dur party obs ht htt hd hds hp hpp ho
    simp [_distance_protocol, _scrape_distance, ht, htt, hd, hds, hp, hpp, ho,
          ebind_ok, distanceEqNonePair, optVal]
  · intro time dur party obs ht htt ha hd hp hpp ho
    simp [_area_protocol, _scrape_area, ht, htt, ha, hd, hp, hpp, ho, ebind_ok]
  · intro how
    constructor
    · simp [_incidental_observations, _scrape_observers, how, ebind_err]
    · simp [_historical_observations, _scrape_observers, how, ebind_err]

/-- Witness for `mandatory_field_failures` at concrete documents, one per
removed field and policy. -/
theorem mandatory_field_failures_witness :
    _point_protocol { doc0 with timeDatetime := Option.none } =
      Except.error Err.attributeError ∧
    _point_protocol { doc0 with timeDatetime := some "" } =
      Except.error (Err.valueError "the time field was not found") ∧
    _point_protocol { doc0 with durationSpan := Option.none } =
      Except.error (Err.valueError "the duration field was not found") ∧
    _point_protocol { doc0 with partySizeText := Option.none } =
      Except.error Err.attributeError ∧
    _point_protocol { doc0 with partySizeText := some "" } =
      Except.error (Err.valueError "the party size field was not found") ∧
    _point_protocol { doc0 with ownerPresent := false } =
      Except.error Err.attributeError ∧
    _distance_protocol { doc0 with distanceSpan := Option.none } =
      Except.ok [("time", Val.str "07:30 AM"), ("duration", Val.str "30"),
                 ("distance", Val.none), ("party_size", Val.str "2"),
                 ("observers", Val.strs ["Owner"])] ∧
    _area_protocol true { doc0 with areaText := Option.none } =
      Except.error (Err.valueError "the area field was not found") ∧
    _incidental_observations { doc0 with ownerPresent := false } =
      Except.error Err.attributeError ∧
    _historical_observations { doc0 with ownerPresent := false } =
      Except.error Err.attributeError :=
  ⟨(mandatory_field_failures { doc0 with timeDatetime := Option.none }).1 rfl,
   (mandatory_field_failures { doc0 with timeDatetime := some "" }).2.1
     (some "30") "2" ["Owner"] rfl rfl rfl rfl,
   (mandatory_field_failures { doc0 with durationSpan := Option.none }).2.2.1
     (some "07:30 AM") "2" ["Owner"] rfl rfl rfl rfl rfl,
   (mandatory_field_failures { doc0 with partySizeText := Option.none }).2.2.2.1
     (some "07:30 AM") (some "30") rfl rfl rfl,
   (mandatory_field_failures { doc0 with partySizeText := some "" }).2.2.2.2.1
     (some "07:30 AM") "30" ["Owner"] rfl rfl rfl (by decide) rfl rfl,
   (mandatory_field_failures { doc0 with ownerPresent := false }).2.2.2.2.2.1
     (some "07:30 AM") (some "30") "2" rfl rfl rfl rfl,
   (mandatory_field_failures { doc0 with distanceSpan := Option.none
     }).2.2.2.2.2.2.1 (some "07:30 AM") "30" "2" ["Owner"]
     rfl rfl rfl rfl rfl (by decide) rfl,
   (mandatory_field_failures { doc0 with areaText := Option.none
     }).2.2.2.2.2.2.2.1 (some "07:30 AM") "30" "2" ["Owner"]
     rfl rfl rfl rfl rfl (by decide) rfl,
   ((mandatory_field_failures { doc0 with ownerPresent := false
     }).2.2.2.2.2.2.2.2 rfl).1,
   ((mandatory_field_failures { doc0 with ownerPresent := false
     }).2.2.2.2.2.2.2.2 rfl).2⟩

/-! ### Claim C5 -/

/-- Claim C5: under the Banding policy a successful extraction's record
holds exactly the time, duration, party-size and observers fields — never
an area field, even when the source document carries one — while those
four fields remain required: an absent time value, duration badge or
party size, or a missing owner, aborts the extraction. -/
theorem banding_never_includes_area (d : Doc) :
    (∀ r, _area_protocol false d = Except.ok r →
      r.map Prod.fst = ["time", "duration", "party_size", "observers"] ∧
      r.lookup "area" = Option.none) ∧
    (∀ a dur party obs, _scrape_time d = Except.ok Option.none →
      _scrape_area d = Except.ok a → _scrape_duration d = Except.ok dur →
      _scrape_party_size d = Except.ok party →
      _scrape_observers d = Except.ok obs →
      _area_protocol false d =
        Except.error (Err.valueError "the time field was not found")) ∧
    (∀ time a party obs, _scrape_time d = Except.ok time →
      pyTruthy time = true → _scrape_area d = Except.ok a →
      _scrape_duration d = Except.ok Option.none →
      _scrape_party_size d = Except.ok party →
      _scrape_observers d = Except.ok obs →
      _area_protocol false d =
        Except.error (Err.valueError "the duration field was not found")) ∧
    (∀ time a dur obs, _scrape_time d = Except.ok time →
      pyTruthy time = true → _scrape_area d = Except.ok a →
      _scrape_duration d = Except.ok (some dur) →
      _scrape_party_size d = Except.ok "" →
      _scrape_observers d = Except.ok obs →
      _area_protocol false d =
        Except.error (Err.valueError "the party size field was not found")) ∧
    (∀ time a dur party, _scrape_time d = Except.ok time →
      _scrape_area d = Except.ok a → _scrape_duration d = Except.ok dur →
      _scrape_party_size d = Except.ok party → d.ownerPresent = false →
      _area_protocol false d = Except.error Err.attributeError) := by
  refine ⟨?_, ?_, ?_, ?_, ?_⟩
  · intro r h
    unfold _area_protocol at h
    cases ht : _scrape_time d with
    | error e => rw [ht] at h; simp [ebind_err] at h
    | ok time =>
    rw [ht, ebind_ok] at h
    cases ha : _scrape_area d with
    | error e => rw [ha] at h; simp [ebind_err] at h
    | ok area =>
    rw [ha, ebind_ok] at h
    cases hd : _scrape_duration d with
    | error e => rw [hd] at h; simp [ebind_err] at h
    | ok dur =>
    rw [hd, ebind_ok] at h
    cases hp : _scrape_party_size d with
    | error e => rw [hp] at h; simp [ebind_err] at h
    | ok party =>
    rw [hp, ebind_ok] at h
    cases ho : _scrape_observers d with
    | error e => rw [ho] at h; simp [ebind_err] at h
    | ok obs =>
    rw [ho, ebind_ok] at h
    split at h
    · simp at h
    · split at h
      · simp at h
      · split at h
        · simp at h
        · split at h
          · simp at h
          · simp at h
            subst h
            exact ⟨rfl, rfl⟩
  · intro a dur party obs ht ha hd hp ho
    simp [_area_protocol, ht, ha, hd, hp, ho, ebind_ok, pyTruthy_none]
  · intro time a party obs ht htt ha hd hp ho
    simp [_area_protocol, ht, htt, ha, hd, hp, ho, ebind_ok]
  · intro time a dur obs ht htt ha hd hp ho
    simp [_area_protocol, ht, htt, ha, hd, hp, ho, ebind_ok]
  · intro time a dur party ht ha hd hp how
    simp [_area_protocol, _scrape_observers, ht, ha, hd, hp, how, ebind_ok,
          ebind_err]

/-- Witness for `banding_never_includes_area`: a document with an area
field present extracts to a record without it, and each required-field
removal fails. -/
theorem banding_never_includes_area_witness :
    ([("time", Val.str "07:30 AM"), ("duration", Val.str "30"),
      ("party_size", Val.str "2"),
      ("observers", Val.strs ["Owner"])].map Prod.fst =
        ["time", "duration", "party_size", "observers"] ∧
     [("time", Val.str "07:30 AM"), ("duration", Val.str "30"),
      ("party_size", Val.str "2"),
      ("observers", Val.strs ["Owner"])].lookup "area" = Option.none) ∧
    _area_protocol false { doc0 with timeDatetime := some "" } =
      Except.error (Err.valueError "the time field was not found") ∧
    _area_protocol false { doc0 with durationSpan := Option.none } =
      Except.error (Err.valueError "the duration field was not found") ∧
    _area_protocol false { doc0 with partySizeText := some "" } =
      Except.error (Err.valueError "the party size field was not found") ∧
    _area_protocol false { doc0 with ownerPresent := false } =
      Except.error Err.attributeError :=
  ⟨(banding_never_includes_area doc0).1
     [("time", Val.str "07:30 AM"), ("duration", Val.str "30"),
      ("party_size", Val.str "2"), ("observers", Val.strs ["Owner"])] rfl,
   (banding_never_includes_area { doc0 with timeDatetime := some "" }).2.1
     (some "2.5", some "ha") (some "30") "2" ["Owner"] rfl rfl rfl rfl rfl,
   (banding_never_includes_area { doc0 with durationSpan := Option.none
     }).2.2.1 (some "07:30 AM") (some "2.5", some "ha") "2" ["Owner"]
     rfl rfl rfl rfl rfl rfl,
   (banding_never_includes_area { doc0 with partySizeText := some "" }).2.2.2.1
     (some "07:30 AM") (some "2.5", some "ha") "30" ["Owner"]
     rfl rfl rfl rfl rfl rfl,
   (banding_never_includes_area { doc0 with ownerPresent := false }).2.2.2.2
     (some "07:30 AM") (some "2.5", some "ha") (some "30") "2"
     rfl rfl rfl rfl rfl⟩


